import Mathlib

/-!
# Verification of the wissahickon multi-tenant backend

Shallow embedding of the data model and request-processing operations of the
backend (roles and permissions, user/tenant role associations, tenant
resolution middleware, login route, rate limiter, audit decorator, request
sanitization, settings routes), with theorems settling the specification
claims about them.

Python dictionaries that hold JSON data are embedded as association lists
(`List (String × Json)`) looked up with `List.lookup`; Python truthiness is
made explicit via `Json.truthy`.  Exceptions become `Except`.
-/

namespace Wissahickon

/-- A JSON value, as stored in JSON database columns and request bodies. -/
inductive Json where
  | null : Json
  | bool : Bool → Json
  | num : Int → Json
  | str : String → Json
  | arr : List Json → Json
  | obj : List (String × Json) → Json
deriving Repr, BEq

/-- Python truthiness of a JSON value (`bool(x)` semantics). -/
def Json.truthy : Json → Bool
  | .null => false
  | .bool b => b
  | .num n => n != 0
  | .str s => s != ""
  | .arr l => !l.isEmpty
  | .obj l => !l.isEmpty

/-- `d.get(k, default)` on a Python dict embedded as an association list. -/
def pyGetD (m : List (String × Json)) (k : String) (dflt : Json) : Json :=
  (List.lookup k m).getD dflt

/-- The `Permission` enumeration from `app/core/constants.py`. -/
inductive Permission where
  | MANAGE_TENANT
  | VIEW_TENANT
  | MANAGE_USERS
  | VIEW_USERS
  | MANAGE_ROLES
  | VIEW_ROLES
  | USE_FEATURE_X
  | USE_FEATURE_Y
deriving Repr, DecidableEq

/-- The `.value` attribute (string wire form) of each `Permission` member. -/
def Permission.value : Permission → String
  | .MANAGE_TENANT => "manage_tenant"
  | .VIEW_TENANT => "view_tenant"
  | .MANAGE_USERS => "manage_users"
  | .VIEW_USERS => "view_users"
  | .MANAGE_ROLES => "manage_roles"
  | .VIEW_ROLES => "view_roles"
  | .USE_FEATURE_X => "use_feature_x"
  | .USE_FEATURE_Y => "use_feature_y"

/-- `Role.has_permission` accepts either a `Permission` enum member or a
string (duck typing in the source). -/
inductive PermArg where
  | enum : Permission → PermArg
  | str : String → PermArg

/-- `permission.value if isinstance(permission, Permission) else str(permission)`. -/
def permValue : PermArg → String
  | .enum p => p.value
  | .str s => s

/-- The `Role` model of `app/models/role.py`.  `permissions` is a nullable
JSON column holding a map of permission key to (JSON) value. -/
structure Role where
  id : String
  name : String
  description : String
  permissions : Option (List (String × Json))
  tenant_id : String
deriving Repr, BEq

/-- `Role.has_permission` from `app/models/role.py` (lines 22-33):
empty/None permission set denies; a truthy `admin` entry grants everything;
otherwise the specific key is looked up with `False` as default.  The Python
function returns the raw looked-up value, used by callers in boolean
context; the embedding returns its truthiness. -/
def Role.has_permission (r : Role) (permission : PermArg) : Bool :=
  match r.permissions with
  | none => false
  | some m =>
    if m.isEmpty then false
    else if (pyGetD m "admin" (Json.bool false)).truthy then true
    else (pyGetD m (permValue permission) (Json.bool false)).truthy

/-! ## C2: the single-primary invariant of UserTenantRole mutations -/

/-- The `UserTenantRole` association model of `app/models/user_tenant_role.py`. -/
structure UserTenantRole where
  user_id : String
  tenant_id : String
  role_id : String
  is_primary : Bool
  is_active : Bool
deriving Repr, DecidableEq

/-- The sequence of `UserTenantRole` rows belonging to one user
(`user.tenant_roles`), in insertion order. -/
abbrev TenantRoles := List UserTenantRole

/-- `self.tenant_roles.filter_by(is_primary=True).first()` followed by
setting `is_primary = False` on the found row: clear the first primary
association, leave the rest untouched. -/
def clearFirstPrimary : TenantRoles → TenantRoles
  | [] => []
  | r :: rest =>
    if r.is_primary then { r with is_primary := false } :: rest
    else r :: clearFirstPrimary rest

/-- `self.tenant_roles.filter_by(tenant_id=tenant.id).first()` followed by
setting `is_primary = True` on the found row.  In the source the row object
is captured before the primary is cleared; since clearing never changes
`tenant_id`, acting on the first `tenant_id` match of the cleared list is
the same row. -/
def setFirstTenantPrimary (tid : String) : TenantRoles → TenantRoles
  | [] => []
  | r :: rest =>
    if r.tenant_id = tid then { r with is_primary := true } :: rest
    else r :: setFirstTenantPrimary tid rest

/-- `User.add_tenant_role` from `app/models/user.py` (lines 37-62): reject if
the user already has a role in the tenant; if the new association is to be
primary, clear the existing primary first; then append the new association
(`is_active` takes its column default `True`). -/
def add_tenant_role (trs : TenantRoles) (uid tid rid : String)
    (is_primary : Bool) : Except String TenantRoles :=
  if trs.filter (fun r => r.tenant_id = tid) ≠ [] then
    Except.error "User already has a role in tenant"
  else
    let cleared := if is_primary then clearFirstPrimary trs else trs
    Except.ok (cleared ++
      [{ user_id := uid, tenant_id := tid, role_id := rid,
         is_primary := is_primary, is_active := true }])

/-- `User.switch_primary_tenant` from `app/models/user.py` (lines 123-141):
require an existing role in the target tenant, clear the current primary,
then mark the target-tenant association primary. -/
def switch_primary_tenant (trs : TenantRoles) (tid : String) :
    Except String TenantRoles :=
  match trs.find? (fun r => r.tenant_id = tid) with
  | none => Except.error "User has no role in tenant"
  | some _ => Except.ok (setFirstTenantPrimary tid (clearFirstPrimary trs))

/-- Number of associations flagged primary. -/
def countPrimary (trs : TenantRoles) : Nat :=
  (trs.filter (fun r => r.is_primary)).length

/-! ## C3: tenant resolution and the two tenant-error kinds -/

/-- The `Tenant` model of `app/models/tenant.py` (fields relevant to
resolution). -/
structure Tenant where
  id : String
  name : String
  subdomain : String
  is_active : Bool
deriving Repr, DecidableEq

/-- `Tenant.query.get(tenant_id)`: primary-key lookup, ignores `is_active`. -/
def queryGetTenant (db : List Tenant) (tid : String) : Option Tenant :=
  db.find? (fun t => t.id = tid)

/-- `Tenant.query.filter_by(is_active=True).first()`. -/
def firstActiveTenant (db : List Tenant) : Option Tenant :=
  db.find? (fun t => t.is_active)

/-- `hostname.split(":")[0].split(".")[0]`: the substring of the Host header
before the first colon (port suffix) and then before the first dot. -/
def subdomainOf (host : String) : String :=
  String.mk ((host.toList.takeWhile (fun c => c ≠ ':')).takeWhile (fun c => c ≠ '.'))

/-- The tenant auto-created in development mode when the database holds no
tenant at all. -/
def devTenant : Tenant :=
  { id := "dev", name := "Development Tenant", subdomain := "development",
    is_active := true }

/-- The production half of `TenantMiddleware.get_tenant_from_request`
(`app/core/middleware.py` lines 148-160): reserved subdomains never resolve;
otherwise the lookup filters on `subdomain` AND `is_active=True`. -/
def productionResolve (host : String) (db : List Tenant) : Option Tenant :=
  if host = "" then none
  else if subdomainOf host = "localhost" ∨ subdomainOf host = "www" ∨
      subdomainOf host = "api" then none
  else db.find? (fun t => t.subdomain = subdomainOf host && t.is_active)

/-- Outcome of tenant resolution: the resolved tenant (if any) and the
tenant table, which dev-mode auto-creation may extend. -/
structure ResolveOutcome where
  tenant : Option Tenant
  db : List Tenant
deriving Repr, DecidableEq

/-- `TenantMiddleware.get_tenant_from_request` (`app/core/middleware.py`
lines 117-164).  In debug mode: `X-Tenant-ID` header lookup (no active
filter), then first active tenant, then auto-creation when the table is
empty; when all of these miss, control falls through to the production
subdomain resolution, which is also the whole of the non-debug path. -/
def get_tenant_from_request (debug : Bool) (headerTenantId : Option String)
    (host : String) (db : List Tenant) : ResolveOutcome :=
  if debug then
    match headerTenantId.bind (queryGetTenant db) with
    | some t => ⟨some t, db⟩
    | none =>
      match firstActiveTenant db with
      | some t => ⟨some t, db⟩
      | none =>
        if db.isEmpty then ⟨some devTenant, db ++ [devTenant]⟩
        else ⟨productionResolve host db, db⟩
  else ⟨productionResolve host db, db⟩

/-- The two tenant-pipeline error kinds of `app/core/exceptions.py`. -/
inductive TenantError where
  | tenantNotFound
  | inactiveTenant
deriving Repr, DecidableEq

/-- Default HTTP status of each tenant error
(`TenantNotFoundError` 404, `InactiveTenantError` 403). -/
def TenantError.status : TenantError → Nat
  | .tenantNotFound => 404
  | .inactiveTenant => 403

/-- `TenantMiddleware.tenant_required` (`app/core/middleware.py` lines
180-197): no resolved tenant raises `TenantNotFoundError`; a resolved but
inactive tenant raises `InactiveTenantError`. -/
def tenant_required (debug : Bool) (headerTenantId : Option String)
    (host : String) (db : List Tenant) : Except TenantError Tenant :=
  match (get_tenant_from_request debug headerTenantId host db).tenant with
  | none => Except.error TenantError.tenantNotFound
  | some t =>
    if !t.is_active then Except.error TenantError.inactiveTenant
    else Except.ok t

/-! ## C4: login status codes -/

/-- The `User` model fields used by the login route
(`app/models/user.py`). -/
structure User where
  id : String
  email : String
  password_hash : String
  is_active : Bool
deriving Repr, DecidableEq

/-- An API error as raised via `APIError(message, status_code)`
(`app/core/errors.py`). -/
structure APIErr where
  message : String
  status_code : Nat
deriving Repr, DecidableEq

/-- The parsed login body: `data.get(k)` yields `none` when the key is
missing; Python treats the empty string as falsy. -/
structure LoginBody where
  email : Option String
  password : Option String
deriving Repr, DecidableEq

/-- `not data.get(k)` for a string field: missing or empty. -/
def pyFalsyStr : Option String → Bool
  | none => true
  | some s => s == ""

/-- The token claims assembled by a successful login. -/
structure LoginOk where
  user_id : String
  email : String
  tenant_id : String
  role_name : String
deriving Repr, DecidableEq

/-- The `login` route of `app/api/auth/routes.py` (lines 19-78).
`check` stands for `werkzeug.security.check_password_hash` (external
collaborator): it receives the stored hash and the submitted password.
`utrs` is the `user_tenant_roles` table, `roles` the `roles` table and
`tenant` the tenant placed into `g.tenant` by the middleware.
The final branch mirrors the source faithfully: when the user has no
primary association, the route calls `add_tenant_role` for a tenant the
user already has a role in, which raises `ValueError` and surfaces as an
unhandled 500. -/
def login (check : String → String → Bool) (users : List User)
    (utrs : TenantRoles) (roles : List Role) (tenant : Tenant)
    (body : Option LoginBody) : Except APIErr LoginOk :=
  match body with
  | none => Except.error ⟨"Missing email or password", 400⟩
  | some data =>
    if pyFalsyStr data.email || pyFalsyStr data.password then
      Except.error ⟨"Missing email or password", 400⟩
    else
      match users.find? (fun u => u.email = data.email.getD "") with
      | none => Except.error ⟨"Invalid email or password", 401⟩
      | some user =>
        if !check user.password_hash (data.password.getD "") then
          Except.error ⟨"Invalid email or password", 401⟩
        else if !user.is_active then
          Except.error ⟨"Account is inactive", 401⟩
        else
          match ((utrs.filter (fun r => r.user_id = user.id)).find?
              (fun r => r.tenant_id = tenant.id)).bind
              (fun utr => roles.find? (fun ro => ro.id = utr.role_id)) with
          | none => Except.error ⟨"No access to this tenant", 403⟩
          | some role =>
            if ((utrs.filter (fun r => r.user_id = user.id)).find?
                (fun r => r.is_primary)).isNone then
              Except.error ⟨"User already has a role in tenant", 500⟩
            else Except.ok ⟨user.id, user.email, tenant.id, role.name⟩

/-! ## C5 and C6: the Redis-backed fixed-window rate limiter -/

/-- A Redis counter key: its current value and its absolute expiry time. -/
structure RedisEntry where
  count : Nat
  expiresAt : Nat
deriving Repr, DecidableEq

/-- The key as seen at time `now`: an entry whose expiry has passed behaves
as missing. -/
def liveEntry (st : Option RedisEntry) (now : Nat) : Option RedisEntry :=
  match st with
  | some e => if now < e.expiresAt then some e else none
  | none => none

/-- `current = redis_client.incr(key)` followed by
`if current == 1: redis_client.expire(key, period)`
(`app/core/rate_limiter.py` lines 52-55): atomic increment; the first
increment of a window sets the expiry to the window length. -/
def rlIncr (st : Option RedisEntry) (now period : Nat) : RedisEntry :=
  match liveEntry st now with
  | some e => { count := e.count + 1, expiresAt := e.expiresAt }
  | none => { count := 1, expiresAt := now + period }

/-- The limit decision of one request. -/
inductive RLDecision where
  | allowed (remaining reset : Nat)
  | denied (retryAfter status : Nat)
deriving Repr, DecidableEq

/-- One pass through the body of the `wrapped` closure in
`RateLimiter.limit` (`app/core/rate_limiter.py` lines 46-71): increment,
conditionally set expiry, then deny with 429 and `retry_after = ttl(key)`
when the post-increment count exceeds `limit`, else allow with
`remaining = limit - current` (the `max(0, ...)` of the source is the
truncation Nat subtraction performs). -/
def rlStep (limit period : Nat) (st : Option RedisEntry) (now : Nat) :
    RedisEntry × RLDecision :=
  let e := rlIncr st now period
  (e, if e.count > limit then
        RLDecision.denied (e.expiresAt - now) 429
      else
        RLDecision.allowed (limit - e.count) (e.expiresAt - now))

/-- The key state after the first `k` requests, the `i`-th arriving at time
`t i` (0-based). -/
def rlRun (limit period : Nat) (t : Nat → Nat) : Nat → Option RedisEntry
  | 0 => none
  | k + 1 => some (rlStep limit period (rlRun limit period t k) (t k)).1

/-- The decision served to the `k`-th request (0-based). -/
def rlDecision (limit period : Nat) (t : Nat → Nat) (k : Nat) : RLDecision :=
  (rlStep limit period (rlRun limit period t k) (t k)).2

/-- The backing store as the limiter sees it: an operational Redis at some
key state, or one whose operations raise `redis.RedisError`. -/
inductive LimiterStore where
  | ok (st : Option RedisEntry)
  | failing
deriving Repr, DecidableEq

/-- Outcome of the wrapped route: the handler response passed through, or a
429 rejection. -/
inductive RLResult (α : Type) where
  | response (a : α)
  | rejected (retryAfter : Nat)
deriving Repr, BEq

/-- The `wrapped` closure of `RateLimiter.limit`
(`app/core/rate_limiter.py` lines 40-98): skip entirely when the limiter is
disabled or Redis was never configured (`not self.enabled or not
self.redis`); when a store operation raises, the outer `except` logs and
calls the handler anyway; otherwise enforce the window decision. -/
def rlWrapped {α : Type} (enabled : Bool) (store : Option LimiterStore)
    (limit period now : Nat) (handler : α) : RLResult α :=
  if !enabled || store.isNone then RLResult.response handler
  else
    match store with
    | none => RLResult.response handler
    | some LimiterStore.failing => RLResult.response handler
    | some (LimiterStore.ok st) =>
      match (rlStep limit period st now).2 with
      | RLDecision.denied retry _ => RLResult.rejected retry
      | RLDecision.allowed _ _ => RLResult.response handler

/-! ## C7: the audit decorator never alters the handler response -/

/-- An `audit_logs` row, as created by `AuditLog.create`. -/
structure AuditEntry where
  action : String
  entity_type : String
  entity_id : Option String
deriving Repr, DecidableEq

/-- The body of `audit_action`'s `decorated_function`
(`app/core/audit.py` lines 45-89) after the handler has produced
`response`: commit the main transaction (`mainCommit`; its failure is
caught by the outer `except` and swallowed); then build and commit the
audit row in a nested transaction (`auditCreate` covers the context
reads, `AuditLog.create` and the nested commit; its failure is caught by
the inner `except`, which rolls the nested transaction back).  Returns the
response together with the audit-log table. -/
def audit_action (response : α) (mainCommit : Except String Unit)
    (auditCreate : Except String AuditEntry) (logs : List AuditEntry) :
    α × List AuditEntry :=
  match mainCommit with
  | Except.error _ => (response, logs)
  | Except.ok _ =>
    match auditCreate with
    | Except.ok entry => (response, logs ++ [entry])
    | Except.error _ => (response, logs)

/-! ## C9: single-key settings deletion is frame-preserving -/

/-- The `delete_setting` route of `app/api/settings/routes.py`
(lines 69-83): 404 when no settings row exists for the owner or the key is
absent; otherwise rebuild the settings dict excluding exactly that key
(the dict comprehension `k: v for k, v in items if k != key`). -/
def delete_setting_route (settingsRec : Option (List (String × Json)))
    (key : String) : Except APIErr (List (String × Json)) :=
  match settingsRec with
  | none => Except.error ⟨"Setting not found", 404⟩
  | some m =>
    if (List.lookup key m).isNone then Except.error ⟨"Setting not found", 404⟩
    else Except.ok (m.filter (fun kv => !(kv.1 == key)))

/-! ## C8: sanitization is idempotent; exempt paths pass through

`RequestSanitizer.sanitize_string` composes three steps: drop NUL bytes,
drop control characters other than newline and tab, then `bleach.clean`.
`bleach` is an external library whose source is not part of this
repository; it is modelled below from the spec. -/

/-- `value.replace(chr(0), empty)`: drop NUL characters. -/
def dropNul (l : List Char) : List Char :=
  l.filter (fun c => !(c == '\x00'))

/-- The character predicate of
`join(char for char in value if char >= chr(32) or char in newline-tab)`. -/
def keepChar (c : Char) : Bool :=
  decide (' ' ≤ c) || c == '\n' || c == '\t'

/-- Modelled from the spec: `bleach.clean(value, tags=..., strip=True)` from
the external `bleach` library, whose code is not in this repository.  The
spec describes this step as neutralizing HTML/script content of string
fields; the model escapes the tag-forming angle brackets into HTML
entities, character by character. -/
def bleachEscapeChar (c : Char) : List Char :=
  if c = '<' then ['&', 'l', 't', ';']
  else if c = '>' then ['&', 'g', 't', ';']
  else [c]

/-- Modelled from the spec: `bleach.clean` applied to a whole string (see
`bleachEscapeChar`). -/
def bleachCleanList : List Char → List Char
  | [] => []
  | c :: cs => bleachEscapeChar c ++ bleachCleanList cs

/-- `RequestSanitizer.sanitize_string`
(`app/core/security/sanitization.py` lines 23-29) on the character list. -/
def sanitizeChars (l : List Char) : List Char :=
  bleachCleanList ((dropNul l).filter keepChar)

/-- `RequestSanitizer.sanitize_string` on strings. -/
def sanitize_string (s : String) : String :=
  String.mk (sanitizeChars s.data)

mutual

/-- The recursive body sanitizer `sanitize_data` nested in
`sanitize_request` (`app/core/security/sanitization.py` lines 74-81):
strings are sanitized, dicts and lists are mapped over recursively, all
other values pass through. -/
def sanitize_data : Json → Json
  | .null => .null
  | .bool b => .bool b
  | .num n => .num n
  | .str s => .str (sanitize_string s)
  | .arr items => .arr (sanitizeArr items)
  | .obj fields => .obj (sanitizeObj fields)

/-- `sanitize_data` mapped over a JSON array. -/
def sanitizeArr : List Json → List Json
  | [] => []
  | j :: rest => sanitize_data j :: sanitizeArr rest

/-- `sanitize_data` mapped over the values of a JSON object. -/
def sanitizeObj : List (String × Json) → List (String × Json)
  | [] => []
  | (k, v) :: rest => (k, sanitize_data v) :: sanitizeObj rest

end

/-- `RequestSanitizer.validate_content_length`: zero (falsy) passes, else
at most 10 MB. -/
def validate_content_length (n : Nat) : Bool :=
  n == 0 || n ≤ 10485760

/-- Characters removed by Python `str.strip()`. -/
def pySpace (c : Char) : Bool :=
  c == ' ' || c == '\t' || c == '\n' || c == '\r'

/-- `content_type.split(";")[0].strip().lower()`. -/
def baseContentType (ct : String) : String :=
  String.mk (((((ct.data.takeWhile (fun c => !(c == ';'))).dropWhile
    pySpace).reverse.dropWhile pySpace).reverse).map Char.toLower)

/-- `RequestSanitizer.validate_content_type`: an empty header passes, else
the base content type must be in the allow-list. -/
def validate_content_type (ct : String) : Bool :=
  ct == "" ||
    (baseContentType ct == "application/json" ||
     baseContentType ct == "multipart/form-data" ||
     baseContentType ct == "application/x-www-form-urlencoded" ||
     baseContentType ct == "text/plain")

/-- The request as the `sanitize_request` decorator sees it.  `json` is the
outcome of `request.get_json()`: decode failure, absent/falsy body, or a
parsed value. -/
structure Request where
  path : String
  method : String
  content_length : Nat
  content_type : String
  is_json : Bool
  json : Except Unit (Option Json)
  form : List (String × String)

/-- The `sanitize_request` decorator
(`app/core/security/sanitization.py` lines 45-102), returning the request
object as the wrapped handler observes it (or an abort).  Exempt paths are
modelled as compiled regex predicates (`re.match(path, request.path)`). -/
def sanitize_request (exempt_paths : List (String → Bool)) (req : Request) :
    Except APIErr Request :=
  if exempt_paths.any (fun pat => pat req.path) then Except.ok req
  else if req.method == "POST" || req.method == "PUT" || req.method == "PATCH" then
    if !(validate_content_length req.content_length) then
      Except.error ⟨"Request entity too large", 413⟩
    else if !(validate_content_type req.content_type) then
      Except.error ⟨"Unsupported content type", 415⟩
    else if req.is_json then
      match req.json with
      | Except.error _ => Except.error ⟨"Invalid JSON", 400⟩
      | Except.ok none => Except.ok req
      | Except.ok (some data) =>
        if data.truthy then
          Except.ok { req with json := Except.ok (some (sanitize_data data)) }
        else Except.ok req
    else if !req.form.isEmpty then
      Except.ok { req with
        form := req.form.map (fun kv => (kv.1, sanitize_string kv.2)) }
    else Except.ok req
  else Except.ok req

/-! ## Theorems -/

lemma lookup_ne_nil {m : List (String × Json)} {k : String} {v : Json}
    (h : List.lookup k m = some v) : m.isEmpty = false := by
  cases m with
  | nil => simp [List.lookup] at h
  | cons a l => simp [List.isEmpty]

/-- Claim C1: for every Role whose permissions map contains the entry
`admin : true`, `has_permission x` returns true for every permission `x`
(enum or string); the admin entry acts as a wildcard short-circuit evaluated
before any specific-key lookup. -/
theorem admin_wildcard_grants_all (r : Role) (m : List (String × Json))
    (hm : r.permissions = some m)
    (hadmin : List.lookup "admin" m = some (Json.bool true)) :
    ∀ p : PermArg, r.has_permission p = true := by
  intro p
  unfold Role.has_permission
  rw [hm]
  simp only [lookup_ne_nil hadmin, pyGetD, hadmin, Option.getD_some]
  simp [Json.truthy]

/-- Witness for C1: a concrete admin role grants an arbitrary permission. -/
theorem admin_wildcard_grants_all_witness :
    (Role.mk "r1" "admin" "Full access" (some [("admin", Json.bool true)]) "t1").permissions
      = some [("admin", Json.bool true)] ∧
    List.lookup "admin" [("admin", Json.bool true)] = some (Json.bool true) ∧
    (Role.mk "r1" "admin" "Full access" (some [("admin", Json.bool true)]) "t1").has_permission
      (PermArg.enum Permission.MANAGE_USERS) = true :=
  ⟨rfl, rfl,
    admin_wildcard_grants_all
      (Role.mk "r1" "admin" "Full access" (some [("admin", Json.bool true)]) "t1")
      [("admin", Json.bool true)] rfl rfl (PermArg.enum Permission.MANAGE_USERS)⟩

/-- Claim C10: a Role whose permissions attribute is None or an empty map
denies every permission, without raising on the missing permission set
(the embedding is total: the None case is guarded before any lookup). -/
theorem empty_permissions_deny_all (r : Role)
    (h : r.permissions = none ∨ r.permissions = some []) :
    ∀ p : PermArg, r.has_permission p = false := by
  intro p
  unfold Role.has_permission
  rcases h with h | h <;> rw [h]
  simp [List.isEmpty]

/-- Witness for C10: a concrete role with a None permission set denies a
concrete permission. -/
theorem empty_permissions_deny_all_witness :
    ((Role.mk "r2" "empty" "No permissions" none "t1").permissions = none ∨
      (Role.mk "r2" "empty" "No permissions" none "t1").permissions = some []) ∧
    (Role.mk "r2" "empty" "No permissions" none "t1").has_permission
      (PermArg.str "manage_users") = false :=
  ⟨Or.inl rfl,
    empty_permissions_deny_all (Role.mk "r2" "empty" "No permissions" none "t1")
      (Or.inl rfl) (PermArg.str "manage_users")⟩

lemma countPrimary_nil : countPrimary [] = 0 := rfl

lemma countPrimary_cons (r : UserTenantRole) (rest : TenantRoles) :
    countPrimary (r :: rest) =
      (if r.is_primary then 1 else 0) + countPrimary rest := by
  by_cases h : r.is_primary
  · simp [countPrimary, List.filter, h]
    omega
  · simp [countPrimary, List.filter, h]

lemma countPrimary_append (a b : TenantRoles) :
    countPrimary (a ++ b) = countPrimary a + countPrimary b := by
  simp [countPrimary, List.filter_append]

lemma countPrimary_clearFirstPrimary (trs : TenantRoles)
    (h : countPrimary trs ≤ 1) : countPrimary (clearFirstPrimary trs) = 0 := by
  induction trs with
  | nil => rfl
  | cons r rest ih =>
    rw [countPrimary_cons] at h
    by_cases hr : r.is_primary = true
    · rw [if_pos hr] at h
      have hrest : countPrimary rest = 0 := by omega
      simp [clearFirstPrimary, hr, countPrimary_cons, hrest]
    · rw [if_neg hr] at h
      simp only [Nat.zero_add] at h
      simp [clearFirstPrimary, hr, countPrimary_cons, ih h]

lemma countPrimary_setFirstTenantPrimary (tid : String) (trs : TenantRoles) :
    countPrimary (setFirstTenantPrimary tid trs) ≤ countPrimary trs + 1 := by
  induction trs with
  | nil => simp [setFirstTenantPrimary, countPrimary_nil]
  | cons r rest ih =>
    by_cases ht : r.tenant_id = tid
    · simp only [setFirstTenantPrimary, ht, if_true]
      rw [countPrimary_cons, countPrimary_cons]
      by_cases hr : r.is_primary
      · simp [hr]
      · simp [hr]
        omega
    · simp only [setFirstTenantPrimary, ht, if_false]
      rw [countPrimary_cons, countPrimary_cons]
      omega

/-- Claim C2: starting from a state with at most one primary association,
both `add_tenant_role` (with any `is_primary` flag) and
`switch_primary_tenant` leave at most one primary association whenever they
succeed. -/
theorem primary_invariant_preserved (trs : TenantRoles)
    (uid tid rid : String) (is_primary : Bool)
    (hinv : countPrimary trs ≤ 1) :
    (∀ trs2, add_tenant_role trs uid tid rid is_primary = Except.ok trs2 →
      countPrimary trs2 ≤ 1) ∧
    (∀ trs2, switch_primary_tenant trs tid = Except.ok trs2 →
      countPrimary trs2 ≤ 1) := by
  constructor
  · intro trs2 h
    unfold add_tenant_role at h
    by_cases hex : trs.filter (fun r => r.tenant_id = tid) ≠ []
    · simp [hex] at h
    · simp only [hex, if_neg, if_false, Except.ok.injEq] at h
      subst h
      rw [countPrimary_append]
      by_cases hp : is_primary = true
      · rw [if_pos hp, countPrimary_clearFirstPrimary trs hinv]
        rw [countPrimary_cons, countPrimary_nil]
        split <;> omega
      · rw [if_neg hp]
        have h0 : countPrimary
            [({ user_id := uid, tenant_id := tid, role_id := rid,
                is_primary := is_primary, is_active := true } : UserTenantRole)] = 0 := by
          rw [countPrimary_cons, countPrimary_nil]
          simp [hp]
        omega
  · intro trs2 h
    unfold switch_primary_tenant at h
    cases hfind : trs.find? (fun r => r.tenant_id = tid) with
    | none => rw [hfind] at h; exact absurd h (by simp)
    | some r =>
      rw [hfind] at h
      simp only [Except.ok.injEq] at h
      subst h
      calc countPrimary (setFirstTenantPrimary tid (clearFirstPrimary trs))
          ≤ countPrimary (clearFirstPrimary trs) + 1 :=
            countPrimary_setFirstTenantPrimary tid (clearFirstPrimary trs)
        _ = 1 := by rw [countPrimary_clearFirstPrimary trs hinv]

/-- Witness for C2: concrete states run through both mutations. -/
theorem primary_invariant_preserved_witness :
    countPrimary [UserTenantRole.mk "u1" "tA" "r1" true true] ≤ 1 ∧
    countPrimary
      (match add_tenant_role [UserTenantRole.mk "u1" "tA" "r1" true true]
          "u1" "tB" "r2" true with
        | Except.ok l => l
        | Except.error _ => []) ≤ 1 := by
  refine ⟨by decide, ?_⟩
  have h := (primary_invariant_preserved
      [UserTenantRole.mk "u1" "tA" "r1" true true] "u1" "tB" "r2" true
      (by decide)).1
      [UserTenantRole.mk "u1" "tA" "r1" false true,
       UserTenantRole.mk "u1" "tB" "r2" true true]
      rfl
  exact h

/-- Counterexample to C3 as stated: in production mode a request whose Host
subdomain names an existing but deactivated tenant fails with
`TenantNotFound` (404), not `InactiveTenant`, because the subdomain lookup
filters on `is_active=True`. -/
theorem production_inactive_tenant_is_not_found :
    tenant_required false none "acme.example.com"
        [Tenant.mk "t1" "Acme" "acme" false] =
      Except.error TenantError.tenantNotFound ∧
    (Except.error TenantError.tenantNotFound : Except TenantError Tenant) ≠
      Except.error TenantError.inactiveTenant :=
  ⟨rfl, by simp⟩

lemma productionResolve_active (host : String) (db : List Tenant) (t : Tenant)
    (h : productionResolve host db = some t) : t.is_active = true := by
  unfold productionResolve at h
  split at h
  · exact absurd h (by simp)
  · split at h
    · exact absurd h (by simp)
    · have := List.find?_some h
      simp only [Bool.and_eq_true] at this
      exact this.2

/-- Claim C3 (amended): a resolved-but-deactivated tenant yields
`InactiveTenant` (403), distinct from `TenantNotFound` (404) — but such a
tenant can only be resolved through the development `X-Tenant-ID` header
lookup; in production mode the subdomain lookup filters on `is_active`, so a
deactivated tenant is reported as `TenantNotFound` and `InactiveTenant` is
never raised. -/
theorem tenant_error_kinds_amended :
    (∀ db tid host t, queryGetTenant db tid = some t → t.is_active = false →
      tenant_required true (some tid) host db =
        Except.error TenantError.inactiveTenant) ∧
    (TenantError.inactiveTenant.status = 403 ∧
      TenantError.tenantNotFound.status = 404 ∧
      TenantError.inactiveTenant ≠ TenantError.tenantNotFound) ∧
    (∀ host db headerTenantId,
      tenant_required false headerTenantId host db ≠
        Except.error TenantError.inactiveTenant) := by
  refine ⟨?_, ⟨rfl, rfl, by simp⟩, ?_⟩
  · intro db tid host t hfound hinactive
    unfold tenant_required get_tenant_from_request
    simp [hfound, hinactive]
  · intro host db headerTenantId h
    unfold tenant_required get_tenant_from_request at h
    simp at h
    cases hres : productionResolve host db with
    | none => simp [hres] at h
    | some t => simp [hres, productionResolve_active host db t hres] at h

/-- Witness for C3 (amended): the development header path resolves a
concrete deactivated tenant and raises `InactiveTenant`. -/
theorem tenant_error_kinds_amended_witness :
    queryGetTenant [Tenant.mk "t1" "Acme" "acme" false] "t1" =
      some (Tenant.mk "t1" "Acme" "acme" false) ∧
    (Tenant.mk "t1" "Acme" "acme" false).is_active = false ∧
    tenant_required true (some "t1") "" [Tenant.mk "t1" "Acme" "acme" false] =
      Except.error TenantError.inactiveTenant :=
  ⟨rfl, rfl,
    tenant_error_kinds_amended.1 [Tenant.mk "t1" "Acme" "acme" false] "t1" ""
      (Tenant.mk "t1" "Acme" "acme" false) rfl rfl⟩

/-- Counterexample to C4 as stated: correct email and password for a
deactivated account yield HTTP 401 with message `Account is inactive`, not
403 as claimed (`app/api/auth/routes.py` line 45 uses `status_code=401`). -/
theorem inactive_account_login_is_401 :
    login (fun h p => h == p) [User.mk "u1" "a@b.c" "pw" false] [] []
        (Tenant.mk "t1" "Acme" "acme" true)
        (some ⟨some "a@b.c", some "pw"⟩) =
      Except.error ⟨"Account is inactive", 401⟩ ∧
    (APIErr.mk "Account is inactive" 401).status_code ≠ 403 :=
  ⟨rfl, by simp⟩

/-- Claim C4 (amended): with a well-formed body, a wrong email or a wrong
password each return 401 `Invalid email or password`; a correct email and
password for an account whose active flag is false return 401 with the
distinct message `Account is inactive` (not 403). -/
theorem login_status_codes_amended :
    (∀ check users utrs roles tenant e p,
      e ≠ "" → p ≠ "" →
      List.find? (fun u => u.email = e) users = none →
      login check users utrs roles tenant (some ⟨some e, some p⟩) =
        Except.error ⟨"Invalid email or password", 401⟩) ∧
    (∀ check users utrs roles tenant e p user,
      e ≠ "" → p ≠ "" →
      List.find? (fun u => u.email = e) users = some user →
      check user.password_hash p = false →
      login check users utrs roles tenant (some ⟨some e, some p⟩) =
        Except.error ⟨"Invalid email or password", 401⟩) ∧
    (∀ check users utrs roles tenant e p user,
      e ≠ "" → p ≠ "" →
      List.find? (fun u => u.email = e) users = some user →
      check user.password_hash p = true →
      user.is_active = false →
      login check users utrs roles tenant (some ⟨some e, some p⟩) =
        Except.error ⟨"Account is inactive", 401⟩) := by
  refine ⟨?_, ?_, ?_⟩
  · intro check users utrs roles tenant e p he hp hfind
    unfold login
    simp [pyFalsyStr, he, hp, hfind]
  · intro check users utrs roles tenant e p user he hp hfind hcheck
    unfold login
    simp [pyFalsyStr, he, hp, hfind, hcheck]
  · intro check users utrs roles tenant e p user he hp hfind hcheck hactive
    unfold login
    simp [pyFalsyStr, he, hp, hfind, hcheck, hactive]

/-- Witness for C4 (amended): the inactive-account conjunct evaluated on a
concrete store. -/
theorem login_status_codes_amended_witness :
    ("a@b.c" : String) ≠ "" ∧ ("pw" : String) ≠ "" ∧
    List.find? (fun u => u.email = "a@b.c") [User.mk "u1" "a@b.c" "pw" false] =
      some (User.mk "u1" "a@b.c" "pw" false) ∧
    (fun (h p : String) => h == p) "pw" "pw" = true ∧
    (User.mk "u1" "a@b.c" "pw" false).is_active = false ∧
    login (fun h p => h == p) [User.mk "u1" "a@b.c" "pw" false] [] []
        (Tenant.mk "t1" "Acme" "acme" true)
        (some ⟨some "a@b.c", some "pw"⟩) =
      Except.error ⟨"Account is inactive", 401⟩ :=
  ⟨by simp, by simp, rfl, rfl, rfl,
    login_status_codes_amended.2.2 (fun h p => h == p)
      [User.mk "u1" "a@b.c" "pw" false] [] [] (Tenant.mk "t1" "Acme" "acme" true)
      "a@b.c" "pw" (User.mk "u1" "a@b.c" "pw" false)
      (by simp) (by simp) rfl rfl rfl⟩

lemma rlRun_state (limit period : Nat) (t : Nat → Nat)
    (hwin : ∀ k, k ≤ limit → t k < t 0 + period) :
    ∀ k, k ≤ limit → rlRun limit period t (k + 1) =
      some ⟨k + 1, t 0 + period⟩ := by
  intro k
  induction k with
  | zero => intro _; simp [rlRun, rlStep, rlIncr, liveEntry]
  | succ n ih =>
    intro hn
    have hprev := ih (Nat.le_of_succ_le hn)
    show rlRun limit period t (n + 1 + 1) = _
    rw [rlRun, hprev]
    simp [rlStep, rlIncr, liveEntry, hwin (n + 1) hn]

lemma rlIncr_at (limit period : Nat) (t : Nat → Nat)
    (hwin : ∀ k, k ≤ limit → t k < t 0 + period) :
    ∀ i, i ≤ limit →
      rlIncr (rlRun limit period t i) (t i) period = ⟨i + 1, t 0 + period⟩ := by
  intro i hi
  cases i with
  | zero => simp [rlRun, rlIncr, liveEntry]
  | succ n =>
    rw [rlRun_state limit period t hwin n (Nat.le_of_succ_le hi)]
    simp [rlIncr, liveEntry, hwin (n + 1) hi]

/-- Claim C5: within one window, each of the first `limit` requests is
allowed with `remaining = limit - count`, strictly decreasing; request
`limit + 1` is denied with status 429 and a positive retry-after equal to
the remaining window time; and the first increment of the window sets the
key expiry to the window length. -/
theorem rate_limiter_window (limit period : Nat) (t : Nat → Nat)
    (hwin : ∀ k, k ≤ limit → t k < t 0 + period) :
    (∀ i, i < limit →
      rlDecision limit period t i =
        RLDecision.allowed (limit - (i + 1)) (t 0 + period - t i)) ∧
    (∀ i j, i < j → j < limit → limit - (j + 1) < limit - (i + 1)) ∧
    (rlDecision limit period t limit =
        RLDecision.denied (t 0 + period - t limit) 429 ∧
      0 < t 0 + period - t limit) ∧
    rlRun limit period t 1 = some ⟨1, t 0 + period⟩ := by
  refine ⟨?_, ?_, ⟨?_, ?_⟩, ?_⟩
  · intro i hi
    unfold rlDecision rlStep
    rw [rlIncr_at limit period t hwin i (Nat.le_of_lt hi)]
    simp only []
    rw [if_neg (by omega : ¬ i + 1 > limit)]
  · intro i j hij hj
    omega
  · unfold rlDecision rlStep
    rw [rlIncr_at limit period t hwin limit (Nat.le_refl limit)]
    simp only []
    rw [if_pos (by omega : limit + 1 > limit)]
  · have := hwin limit (Nat.le_refl limit)
    omega
  · have h0 : (0 : Nat) ≤ limit := Nat.zero_le limit
    simpa using rlRun_state limit period t hwin 0 h0

/-- Witness for C5: limit 2, window 10, three requests at times 0, 3, 7. -/
theorem rate_limiter_window_witness :
    (∀ k, k ≤ 2 → (fun i => if i = 0 then 0 else if i = 1 then 3 else 7) k <
      (fun i => if i = 0 then 0 else if i = 1 then 3 else 7) 0 + 10) ∧
    rlDecision 2 10 (fun i => if i = 0 then 0 else if i = 1 then 3 else 7) 2 =
      RLDecision.denied 3 429 := by
  have hwin : ∀ k, k ≤ 2 →
      (fun i => if i = 0 then 0 else if i = 1 then 3 else 7) k <
        (fun i => if i = 0 then 0 else if i = 1 then 3 else 7) 0 + 10 := by
    intro k hk
    interval_cases k <;> simp
  refine ⟨hwin, ?_⟩
  have h := (rate_limiter_window 2 10
      (fun i => if i = 0 then 0 else if i = 1 then 3 else 7) hwin).2.2.1
  simpa using h

/-- Claim C6: whenever the backing store is not configured, the limiter is
disabled, or store operations raise, the wrapped handler runs as if no
limiter were present — the request is never rejected or failed because of a
limiter-backend failure. -/
theorem limiter_fails_open {α : Type} (handler : α) (enabled : Bool)
    (store : Option LimiterStore) (limit period now : Nat) :
    rlWrapped false store limit period now handler =
      RLResult.response handler ∧
    rlWrapped enabled none limit period now handler =
      RLResult.response handler ∧
    rlWrapped enabled (some LimiterStore.failing) limit period now handler =
      RLResult.response handler := by
  refine ⟨rfl, ?_, ?_⟩
  · cases enabled <;> rfl
  · cases enabled <;> rfl

/-- Claim C7: whatever the audit-log creation does — succeed or raise — the
decorated handler returns the handler response unchanged, and a failed
creation leaves the audit-log table exactly as it was (the nested rollback
touches nothing else). -/
theorem audit_failure_never_propagates {α : Type} (response : α)
    (mainCommit : Except String Unit) (auditCreate : Except String AuditEntry)
    (logs : List AuditEntry) (msg : String) :
    (audit_action response mainCommit auditCreate logs).1 = response ∧
    (audit_action response mainCommit (Except.error msg) logs).2 = logs := by
  constructor
  · cases mainCommit with
    | error e => rfl
    | ok u => cases auditCreate <;> rfl
  · cases mainCommit <;> rfl

lemma lookup_filter_ne (m : List (String × Json)) (key k : String)
    (hk : (k == key) = false) :
    List.lookup k (m.filter (fun kv => !(kv.1 == key))) = List.lookup k m := by
  induction m with
  | nil => rfl
  | cons kv rest ih =>
    obtain ⟨a, b⟩ := kv
    cases h1 : (a == key) with
    | true =>
      have h2 : (k == a) = false := by
        rw [eq_of_beq h1]
        exact hk
      simp [List.filter_cons, h1, List.lookup, h2, ih]
    | false =>
      cases h2 : (k == a) with
      | true => simp [List.filter_cons, h1, List.lookup, h2]
      | false => simp [List.filter_cons, h1, List.lookup, h2, ih]

lemma lookup_filter_self (m : List (String × Json)) (key : String) :
    List.lookup key (m.filter (fun kv => !(kv.1 == key))) = none := by
  induction m with
  | nil => rfl
  | cons kv rest ih =>
    obtain ⟨a, b⟩ := kv
    cases h1 : (a == key) with
    | true => simp [List.filter_cons, h1, ih]
    | false =>
      have h2 : (key == a) = false := by
        cases h3 : (key == a) with
        | false => rfl
        | true => rw [eq_of_beq h3] at h1; simp at h1
      simp [List.filter_cons, h1, List.lookup, h2, ih]

/-- Claim C9: when the single-key DELETE endpoint succeeds, the named key is
gone and every other key keeps exactly the value it had before. -/
theorem delete_setting_frame (m m2 : List (String × Json)) (key : String)
    (h : delete_setting_route (some m) key = Except.ok m2) :
    List.lookup key m2 = none ∧
    ∀ k, k ≠ key → List.lookup k m2 = List.lookup k m := by
  have h2 : (if (List.lookup key m).isNone then
        (Except.error ⟨"Setting not found", 404⟩ : Except APIErr (List (String × Json)))
      else Except.ok (m.filter (fun kv => !(kv.1 == key)))) = Except.ok m2 := h
  split at h2
  · exact absurd h2 (by simp)
  · simp only [Except.ok.injEq] at h2
    subst h2
    refine ⟨lookup_filter_self m key, fun k hk => ?_⟩
    have hb : (k == key) = false := by
      cases h3 : (k == key) with
      | false => rfl
      | true => exact absurd (eq_of_beq h3) hk
    exact lookup_filter_ne m key k hb

/-- Witness for C9: deleting `b` from a two-key settings record keeps `a`
intact. -/
theorem delete_setting_frame_witness :
    delete_setting_route (some [("a", Json.num 1), ("b", Json.num 2)]) "b" =
      Except.ok [("a", Json.num 1)] ∧
    List.lookup "a" [("a", Json.num 1)] =
      List.lookup "a" [("a", Json.num 1), ("b", Json.num 2)] ∧
    List.lookup "b" [("a", Json.num 1)] = none := by
  refine ⟨rfl, ?_, ?_⟩
  · exact ((delete_setting_frame [("a", Json.num 1), ("b", Json.num 2)]
      [("a", Json.num 1)] "b" rfl).2 "a" (by decide))
  · exact (delete_setting_frame [("a", Json.num 1), ("b", Json.num 2)]
      [("a", Json.num 1)] "b" rfl).1

lemma mem_bleachEscapeChar {c d : Char} (h : c ∈ bleachEscapeChar d) :
    c = d ∨ c ∈ ['&', 'l', 't', 'g', ';'] := by
  unfold bleachEscapeChar at h
  split at h
  · simp only [List.mem_cons, List.not_mem_nil, or_false] at h ⊢
    tauto
  · split at h
    · simp only [List.mem_cons, List.not_mem_nil, or_false] at h ⊢
      tauto
    · simp only [List.mem_singleton] at h
      exact Or.inl h

lemma bleachEscapeChar_no_angle {c d : Char} (h : c ∈ bleachEscapeChar d) :
    c ≠ '<' ∧ c ≠ '>' := by
  unfold bleachEscapeChar at h
  split at h
  · simp only [List.mem_cons, List.not_mem_nil, or_false] at h
    rcases h with rfl | rfl | rfl | rfl <;> exact ⟨by decide, by decide⟩
  · split at h
    · simp only [List.mem_cons, List.not_mem_nil, or_false] at h
      rcases h with rfl | rfl | rfl | rfl <;> exact ⟨by decide, by decide⟩
    · rename_i h1 h2
      simp only [List.mem_singleton] at h
      subst h
      exact ⟨h1, h2⟩

lemma mem_bleachCleanList {c : Char} {l : List Char}
    (h : c ∈ bleachCleanList l) : c ∈ l ∨ c ∈ ['&', 'l', 't', 'g', ';'] := by
  induction l with
  | nil => simp [bleachCleanList] at h
  | cons d ds ih =>
    simp only [bleachCleanList, List.mem_append] at h
    rcases h with h | h
    · rcases mem_bleachEscapeChar h with h | h
      · exact Or.inl (h ▸ List.mem_cons_self d ds)
      · exact Or.inr h
    · rcases ih h with h | h
      · exact Or.inl (List.mem_cons_of_mem d h)
      · exact Or.inr h

lemma bleachCleanList_no_angle {c : Char} {l : List Char}
    (h : c ∈ bleachCleanList l) : c ≠ '<' ∧ c ≠ '>' := by
  induction l with
  | nil => simp [bleachCleanList] at h
  | cons d ds ih =>
    simp only [bleachCleanList, List.mem_append] at h
    rcases h with h | h
    · exact bleachEscapeChar_no_angle h
    · exact ih h

lemma bleachCleanList_eq_self {l : List Char}
    (h : ∀ c ∈ l, c ≠ '<' ∧ c ≠ '>') : bleachCleanList l = l := by
  induction l with
  | nil => rfl
  | cons d ds ih =>
    have hd := h d (List.mem_cons_self d ds)
    unfold bleachCleanList bleachEscapeChar
    rw [if_neg hd.1, if_neg hd.2, List.singleton_append,
      ih (fun c hc => h c (List.mem_cons_of_mem d hc))]

lemma sanitizeChars_idem (l : List Char) :
    sanitizeChars (sanitizeChars l) = sanitizeChars l := by
  unfold sanitizeChars
  have hmem : ∀ c ∈ bleachCleanList ((dropNul l).filter keepChar),
      (!(c == '\x00')) = true ∧ keepChar c = true := by
    intro c hc
    rcases mem_bleachCleanList hc with h | h
    · unfold dropNul at h
      rw [List.mem_filter] at h
      obtain ⟨h1, hkeep⟩ := h
      rw [List.mem_filter] at h1
      exact ⟨h1.2, hkeep⟩
    · simp only [List.mem_cons, List.not_mem_nil, or_false] at h
      rcases h with rfl | rfl | rfl | rfl | rfl <;> exact ⟨by decide, by decide⟩
  have h1 : dropNul (bleachCleanList ((dropNul l).filter keepChar)) =
      bleachCleanList ((dropNul l).filter keepChar) := by
    unfold dropNul
    exact List.filter_eq_self.mpr (fun c hc => (hmem c hc).1)
  rw [h1]
  rw [List.filter_eq_self.mpr (fun c hc => (hmem c hc).2)]
  exact bleachCleanList_eq_self (fun c hc => bleachCleanList_no_angle hc)

lemma sanitize_string_idem (s : String) :
    sanitize_string (sanitize_string s) = sanitize_string s :=
  congrArg String.mk (sanitizeChars_idem s.data)

mutual

theorem sanitize_data_idem :
    ∀ j, sanitize_data (sanitize_data j) = sanitize_data j
  | .null => rfl
  | .bool _ => rfl
  | .num _ => rfl
  | .str s => by simp only [sanitize_data, sanitize_string_idem s]
  | .arr items => by simp only [sanitize_data, sanitizeArr_idem items]
  | .obj fields => by simp only [sanitize_data, sanitizeObj_idem fields]

theorem sanitizeArr_idem :
    ∀ l, sanitizeArr (sanitizeArr l) = sanitizeArr l
  | [] => rfl
  | j :: rest => by
      simp only [sanitizeArr, sanitize_data_idem j, sanitizeArr_idem rest]

theorem sanitizeObj_idem :
    ∀ l, sanitizeObj (sanitizeObj l) = sanitizeObj l
  | [] => rfl
  | (k, v) :: rest => by
      simp only [sanitizeObj, sanitize_data_idem v, sanitizeObj_idem rest]

end

/-- Claim C8: `sanitize_string` is idempotent, the recursive body sanitizer
is idempotent on every JSON value, and a request whose path matches an
exempt pattern reaches the handler byte-for-byte unmodified. -/
theorem sanitization_idempotent_exempt_passthrough :
    (∀ s, sanitize_string (sanitize_string s) = sanitize_string s) ∧
    (∀ j, sanitize_data (sanitize_data j) = sanitize_data j) ∧
    (∀ (exempt_paths : List (String → Bool)) (req : Request) pat,
      pat ∈ exempt_paths → pat req.path = true →
      sanitize_request exempt_paths req = Except.ok req) := by
  refine ⟨sanitize_string_idem, sanitize_data_idem, ?_⟩
  intro exempt_paths req pat hmem hmatch
  have hany : exempt_paths.any (fun p => p req.path) = true :=
    List.any_eq_true.mpr ⟨pat, hmem, hmatch⟩
  unfold sanitize_request
  rw [if_pos hany]

/-- Witness for C8: a webhook-style request on an exempt path passes
through unmodified. -/
theorem sanitization_idempotent_exempt_passthrough_witness :
    ((fun p : String => p == "/webhook") ∈ [fun p : String => p == "/webhook"]) ∧
    (fun p : String => p == "/webhook") "/webhook" = true ∧
    sanitize_request [fun p : String => p == "/webhook"]
        (Request.mk "/webhook" "POST" 10 "application/json" true
          (Except.ok (some (Json.str "<b>x</b>"))) []) =
      Except.ok
        (Request.mk "/webhook" "POST" 10 "application/json" true
          (Except.ok (some (Json.str "<b>x</b>"))) []) :=
  ⟨List.mem_singleton.mpr rfl, rfl,
    sanitization_idempotent_exempt_passthrough.2.2
      [fun p : String => p == "/webhook"]
      (Request.mk "/webhook" "POST" 10 "application/json" true
        (Except.ok (some (Json.str "<b>x</b>"))) [])
      (fun p : String => p == "/webhook")
      (List.mem_singleton.mpr rfl) rfl⟩

end Wissahickon
